import Mathlib

/-!
Verification of the fast-agent test server (`src/fast_agent/server.py`).

The server is a per-client WebSocket message loop: every inbound JSON
message is appended to the client's history, then dispatched on its
`type` field; every outbound event is appended to the history by
`ConnectionManager.send_message` just before it is JSON-serialized and
sent.  We embed one session's loop as a pure step function over a
session state, modelling:

* JSON values (`JVal`) with Python `dict.get` / truthiness semantics;
* Python string operations used by the classifier (`lower`, substring
  membership, `split(pat, 1)`, `strip`, whitespace `split()`,
  `replace`) — implemented character-by-character to match CPython on
  the ASCII inputs the server deals with;
* Python runtime faults reachable in the handlers (`IndexError` from
  `[0]` on an empty list, `AttributeError` from `.get`/`.lower` on a
  non-dict/non-str, and the `ValueError` that `json.dumps` raises on a
  circular structure).  Any fault is caught by the endpoint's outer
  `except Exception`, which disconnects the session.
* `str(uuid.uuid4())` as a fresh-identifier counter: each generated id
  is a `uuid`-sorted token, assumed (as with real 122-bit random UUIDs)
  never to collide with a client-supplied identifier.

The crucial aliasing detail of `request_history` is kept: the
`history_response` message holds a live reference to the session's own
history list, and `send_message` appends the message to that list
before serializing it, so the serialized object graph is cyclic.
-/

/-- A JSON value as produced by `websocket.receive_json`: Python `None`,
booleans, (integer) numbers, strings, lists and insertion-ordered dicts. -/
inductive JVal where
  | null : JVal
  | bool (b : Bool) : JVal
  | num (n : Int) : JVal
  | str (s : String) : JVal
  | arr (xs : List JVal) : JVal
  | obj (fields : List (String × JVal)) : JVal
deriving Repr

/-- Python runtime faults reachable in the server's handlers. -/
inductive PyErr where
  | indexError : PyErr
  | attributeError : PyErr
  | jsonCircular : PyErr
deriving Repr, DecidableEq

/-! ## Python string primitives -/

/-- `chHeadMatch pat s`: the characters `pat` stand at the start of `s`. -/
def chHeadMatch : List Char → List Char → Bool
  | [], _ => true
  | _ :: _, [] => false
  | a :: as, b :: bs => a == b && chHeadMatch as bs

/-- Suffix of `s` strictly after the first occurrence of `pat`
(`none` when `pat` does not occur). -/
def chAfter (pat : List Char) : List Char → Option (List Char)
  | [] => if chHeadMatch pat [] then some [] else none
  | c :: rest =>
    if chHeadMatch pat (c :: rest) then some ((c :: rest).drop pat.length)
    else chAfter pat rest

/-- Python `pat in s` (substring membership). -/
def pyContains (s pat : String) : Bool :=
  (chAfter pat.data s.data).isSome

/-- Python `s.split(pat, 1)[1]`: the remainder after the first occurrence
of `pat`; `""` when absent (the server only evaluates it when present). -/
def pySplitAfter (s pat : String) : String :=
  match chAfter pat.data s.data with
  | some r => ⟨r⟩
  | none => ""

/-- Helper for Python `s.replace(pat, "")` with pattern `p :: ps`: scan the
characters; on a match emit nothing and skip over the matched occurrence
(`skip` counts characters of a just-matched occurrence still to consume),
giving leftmost non-overlapping replacement. -/
def chRemoveAux (p : Char) (ps : List Char) : Nat → List Char → List Char
  | _, [] => []
  | k + 1, _ :: rest => chRemoveAux p ps k rest
  | 0, c :: rest =>
    if chHeadMatch (p :: ps) (c :: rest) then chRemoveAux p ps ps.length rest
    else c :: chRemoveAux p ps 0 rest

/-- Python `s.replace(pat, "")` for a non-empty pattern `p :: ps`:
remove every (leftmost, non-overlapping) occurrence. -/
def chRemove (p : Char) (ps : List Char) (l : List Char) : List Char :=
  chRemoveAux p ps 0 l

/-- Python `s.replace(pat, "")` on strings (non-empty `pat` only). -/
def pyRemove (s pat : String) : String :=
  match pat.data with
  | [] => s
  | p :: ps => ⟨chRemove p ps s.data⟩

/-- The whitespace set of CPython's `str.strip()` / `str.split()`
(restricted to ASCII, which is all the server's inputs use). -/
def pyWs (c : Char) : Bool :=
  c == ' ' || c == '\t' || c == '\n' || c == '\r' || c == '\x0b' || c == '\x0c'

/-- Python `s.strip()`. -/
def pyStrip (s : String) : String :=
  ⟨((s.data.dropWhile pyWs).reverse.dropWhile pyWs).reverse⟩

/-- Accumulator-based splitting on whitespace runs, dropping empties. -/
def chSplitWs (acc : List Char) : List Char → List (List Char)
  | [] => if acc.isEmpty then [] else [acc.reverse]
  | c :: rest =>
    if pyWs c then
      if acc.isEmpty then chSplitWs [] rest else acc.reverse :: chSplitWs [] rest
    else chSplitWs (c :: acc) rest

/-- Python `s.split()` (no separator): split on whitespace runs, no empties. -/
def pySplitWs (s : String) : List String :=
  (chSplitWs [] s.data).map fun cs => ⟨cs⟩

/-- Python `s.lower()` (ASCII; the trigger words are ASCII). -/
def pyLower (s : String) : String :=
  ⟨s.data.map Char.toLower⟩

mutual

/-- Python `repr` of a JSON value (used by `str` inside containers). -/
def pyRepr : JVal → String
  | .null => "None"
  | .bool true => "True"
  | .bool false => "False"
  | .num n => toString n
  | .str s => "'" ++ s ++ "'"
  | .arr xs => "[" ++ pyReprItems xs ++ "]"
  | .obj fs => "\x7b" ++ pyReprFields fs ++ "\x7d"

/-- Comma-joined `repr`s of the items of a Python list. -/
def pyReprItems : List JVal → String
  | [] => ""
  | [x] => pyRepr x
  | x :: y :: rest => pyRepr x ++ ", " ++ pyReprItems (y :: rest)

/-- Comma-joined `repr`s of the entries of a Python dict. -/
def pyReprFields : List (String × JVal) → String
  | [] => ""
  | [(k, v)] => "'" ++ k ++ "': " ++ pyRepr v
  | (k, v) :: f :: rest =>
      "'" ++ k ++ "': " ++ pyRepr v ++ ", " ++ pyReprFields (f :: rest)

end

/-- Python `str` of a JSON value, as interpolated by an f-string. -/
def pyStr : JVal → String
  | .str s => s
  | v => pyRepr v

/-- Python truthiness of a JSON value (`if tool_data:`). -/
def pyTruthy : JVal → Bool
  | .null => false
  | .bool b => b
  | .num n => n != 0
  | .str s => s != ""
  | .arr xs => !xs.isEmpty
  | .obj fs => !fs.isEmpty

/-! ## Events, history entries, session state -/

/-- An outbound event built by the server.  `str(uuid.uuid4())` calls are
modelled by the `Nat` fresh-identifier they consume; `historyRsp` carries no
payload copy because in the source its payload is a live reference to the
session's own history list. -/
inductive Event where
  | connectionEstablished (clientId : String) : Event
  | pong (timestamp : JVal) : Event
  | initialized : Event
  | thinkingStarted (messageId : JVal) : Event
  | thinkingComplete (messageId : JVal) : Event
  | toolRequest (freshId : Nat) (toolId toolName : String)
      (arguments : List (String × String)) (messageId : JVal) : Event
  | assistantEcho (content : String) (freshId : Nat) (inResponseTo : JVal) : Event
  | assistantToolResult (content : String) (freshId : Nat) : Event
  | historyRsp : Event
  | errorEvent (errText code : String) : Event
deriving Repr

/-- One entry of `message_history[client_id]`: the inbound dict verbatim, or
an outbound event dict. -/
inductive Entry where
  | inbound (m : JVal) : Entry
  | outbound (e : Event) : Entry
deriving Repr

/-- One client's session: its history list and the state of the uuid
generator (next fresh identifier to hand out). -/
structure Session where
  history : List Entry
  nextId : Nat
deriving Repr

/-- Whether a history entry is an outbound `history_response`, i.e. holds a
live reference back to the history list it sits in.  Inbound dicts are plain
parsed JSON and never hold references. -/
def entryLiveRef : Entry → Bool
  | .outbound .historyRsp => true
  | _ => false

/-- `json.dumps` succeeds on the message unless its object graph is cyclic.
Serializing a `history_response` walks the history list it references; the
walk re-enters that message (or another live `history_response` in the list)
exactly when the list holds one, which is CPython's circular-reference
`ValueError`. -/
def serializeOk (history : List Entry) : Event → Bool
  | .historyRsp => !history.any entryLiveRef
  | _ => true

/-- Result of processing inbound messages: the session continues with the
events emitted, or a Python exception escaped (the endpoint's `except`
disconnects the session); `emitted` are the events sent before the fault. -/
inductive StepRes where
  | ok (s : Session) (emitted : List Event) : StepRes
  | fault (emitted : List Event) (err : PyErr) : StepRes
deriving Repr

/-- `ConnectionManager.send_message`: append the outbound message to the
history, then JSON-serialize and send it. -/
def send_message (s : Session) (e : Event) : Except PyErr Session :=
  let h := s.history ++ [.outbound e]
  if serializeOk h e then .ok { s with history := h } else .error .jsonCircular

/-- Send a list of events in order; a serialization fault stops the rest. -/
def sendAll (s : Session) : List Event → StepRes
  | [] => .ok s []
  | e :: rest =>
    match send_message s e with
    | .ok s' =>
      match sendAll s' rest with
      | .ok s'' em => .ok s'' (e :: em)
      | .fault em err => .fault (e :: em) err
    | .error err => .fault [] err

/-! ## The handlers of `websocket_endpoint` -/

/-- `message.get("data", \x7b\x7d).get(key, d)`: a missing `data` field
defaults to an empty dict; `.get` on a non-dict raises `AttributeError`. -/
def dataGetD (fs : List (String × JVal)) (key : String) (d : JVal) :
    Except PyErr JVal :=
  match (fs.lookup "data").getD (.obj []) with
  | .obj ds => .ok ((ds.lookup key).getD d)
  | _ => .error .attributeError

/-- Python `message_type == lit` where `message_type = message.get("type")`:
only a string value can compare equal to a string literal. -/
def tyIs (mt : Option JVal) (lit : String) : Bool :=
  match mt with
  | some (.str t) => t == lit
  | _ => false

/-- Python `str(message_type)` for the unknown-type error text
(`str(None)` is `"None"`). -/
def tyText : Option JVal → String
  | none => "None"
  | some v => pyStr v

/-- The weather trigger: `"weather" in content_lower and ("city" in
content_lower or "in" in content_lower)`. -/
def weatherTrigger (cl : String) : Bool :=
  pyContains cl "weather" && (pyContains cl "city" || pyContains cl "in")

/-- `for char in ["+", "-", "*", "/"]: if char in content_lower` — whether
the expression-extraction loop finds an operator character. -/
def hasArithChar (cl : String) : Bool :=
  pyContains cl "+" || pyContains cl "-" || pyContains cl "*" || pyContains cl "/"

/-- The calculator trigger: `"calculate" in cl or "calculator" in cl or
any(op in cl for op in ["+", "-", "*", "/", "="])`. -/
def calcTrigger (cl : String) : Bool :=
  pyContains cl "calculate" || pyContains cl "calculator" ||
    (hasArithChar cl || pyContains cl "=")

/-- `content_lower.replace("=", "").replace("calculate", "")
.replace("calculator", "").strip()` — the stripped calculator expression. -/
def calcStripped (cl : String) : String :=
  pyStrip (pyRemove (pyRemove (pyRemove cl "=") "calculate") "calculator")

/-- The weather/calculator/echo classification of a `user_message`, from the
lowercased content `cl` (original-case `content` feeds the echo).  Returns
the events the branch emits, an escaping Python fault if any, and the uuid
counter after the branch. -/
def classifyEvents (content cl : String) (mid : JVal) (n : Nat) :
    (List Event × Option PyErr) × Nat :=
  if weatherTrigger cl then
    if pyContains cl "in" then
      match pySplitWs (pyStrip (pySplitAfter cl "in")) with
      | [] => (([], some .indexError), n)
      | tok :: _ =>
        (([.toolRequest n "weather_tool" "GetWeather" [("location", tok)] mid],
          none), n + 1)
    else
      (([.toolRequest n "weather_tool" "GetWeather"
          [("location", "New York")] mid], none), n + 1)
  else if calcTrigger cl then
    let expression :=
      if hasArithChar cl then
        if calcStripped cl == "" then "2+2" else calcStripped cl
      else "2+2"
    (([.toolRequest n "calculator_tool" "Calculate"
        [("expression", expression)] mid], none), n + 1)
  else
    (([.assistantEcho
        ("You said: " ++ content ++
          "\n\nTip: Try asking about weather in a city or to calculate something!")
        n mid], none), n + 1)

/-- The `user_message` handler: extract content and `message_id`, emit
`thinking_started`, classify (`user_content.lower()` raises on a non-string
content, after `thinking_started` already went out), emit the branch's
event, then `thinking_complete`. -/
def handleUserMessage (fs : List (String × JVal)) (n : Nat) :
    (List Event × Option PyErr) × Nat :=
  match dataGetD fs "content" (.str "") with
  | .error e => (([], some e), n)
  | .ok contentV =>
    let mid := (fs.lookup "message_id").getD .null
    match contentV with
    | .str content =>
      let ((evs, f), n') := classifyEvents content (pyLower content) mid n
      (((.thinkingStarted mid :: evs) ++
          (if f.isSome then [] else [.thinkingComplete mid]), f), n')
    | _ => (([.thinkingStarted mid], some .attributeError), n)

/-- The `tool_response` handler: a truthy `data.tool` yields the templated
assistant message; a falsy one is silently ignored; a truthy non-dict
raises `AttributeError` at `.get`. -/
def handleToolResponse (fs : List (String × JVal)) (n : Nat) :
    (List Event × Option PyErr) × Nat :=
  match dataGetD fs "tool" (.obj []) with
  | .error e => (([], some e), n)
  | .ok toolData =>
    if pyTruthy toolData then
      match toolData with
      | .obj ts =>
        let toolName := (ts.lookup "name").getD (.str "Tool")
        let toolResult := (ts.lookup "result").getD (.str "No result")
        (([.assistantToolResult
            ("I used the " ++ pyStr toolName ++ " tool and got: " ++
              pyStr toolResult) n], none), n + 1)
      | _ => (([], some .attributeError), n)
    else (([], none), n)

/-- Dispatch on `message.get("type")`: the events a handler emits (in
order), the Python fault that escapes it if any, and the uuid counter
afterwards. -/
def handle (fs : List (String × JVal)) (n : Nat) :
    (List Event × Option PyErr) × Nat :=
  let mt := fs.lookup "type"
  if tyIs mt "ping" then
    match dataGetD fs "timestamp" .null with
    | .ok ts => (([.pong ts], none), n)
    | .error e => (([], some e), n)
  else if tyIs mt "initialize" then (([.initialized], none), n)
  else if tyIs mt "user_message" then handleUserMessage fs n
  else if tyIs mt "tool_response" then handleToolResponse fs n
  else if tyIs mt "request_history" then (([.historyRsp], none), n)
  else
    (([.errorEvent ("Unknown message type: " ++ tyText mt)
        "UNKNOWN_MESSAGE_TYPE"], none), n)

/-- One iteration of the `websocket_endpoint` loop on one inbound message:
log (faults on a non-dict), append the inbound dict to the history
verbatim, dispatch by type, send the handler's events.  A Python fault —
from the handler or from serialization — escapes to the endpoint's
`except`, which tears the session down. -/
def websocket_step (s : Session) (m : JVal) : StepRes :=
  match m with
  | .obj fs =>
    let s1 : Session := { s with history := s.history ++ [.inbound m] }
    let ((evs, f), n') := handle fs s1.nextId
    match sendAll { s1 with nextId := n' } evs with
    | .ok s2 em =>
      match f with
      | none => .ok s2 em
      | some err => .fault em err
    | .fault em err => .fault em err
  | _ => .fault [] .attributeError

/-- Run the loop over a list of inbound messages. -/
def websocket_run (s : Session) : List JVal → StepRes
  | [] => .ok s []
  | m :: rest =>
    match websocket_step s m with
    | .ok s' em =>
      match websocket_run s' rest with
      | .ok s'' em' => .ok s'' (em ++ em')
      | .fault em' err => .fault (em ++ em') err
    | .fault em err => .fault em err

/-- The session right after `ConnectionManager.connect` and the
`connection_established` send: empty history, then the event appended. -/
def startSession (clientId : String) : StepRes :=
  match send_message { history := [], nextId := 0 }
      (.connectionEstablished clientId) with
  | .ok s => .ok s [.connectionEstablished clientId]
  | .error err => .fault [] err

/-- A whole session: connect, `connection_established`, then the loop. -/
def runSession (clientId : String) (ms : List JVal) : StepRes :=
  match startSession clientId with
  | .ok s em =>
    match websocket_run s ms with
    | .ok s' em' => .ok s' (em ++ em')
    | .fault em' err => .fault (em ++ em') err
  | .fault em err => .fault em err

/-! ## The global connection registry (`ConnectionManager.connect`) -/

/-- The module-level `active_connections` and `message_history` dicts;
WebSocket handles are abstracted to opaque `Nat` tokens. -/
structure ServerState where
  active_connections : String → Option Nat
  message_history : String → Option (List Entry)

namespace ConnectionManager

/-- `ConnectionManager.connect`: accept, then unconditionally overwrite the
connection entry and reset the history entry for `client_id`. -/
def connect (st : ServerState) (client_id : String) (ws : Nat) : ServerState :=
  { active_connections := fun k => if k == client_id then some ws
      else st.active_connections k,
    message_history := fun k => if k == client_id then some []
      else st.message_history k }

end ConnectionManager

/-- Project a history entry to its inbound message, if it is one. -/
def entryInbound : Entry → Option JVal
  | .inbound m => some m
  | .outbound _ => none

/-- Project a history entry to its outbound event, if it is one. -/
def entryOutbound : Entry → Option Event
  | .inbound _ => none
  | .outbound e => some e

/-- The five `type` values the router dispatches on; anything else falls to
the unknown-type branch. -/
def knownType (mt : Option JVal) : Bool :=
  tyIs mt "ping" || tyIs mt "initialize" || tyIs mt "user_message" ||
    tyIs mt "tool_response" || tyIs mt "request_history"

/-- The calculator-expression extraction as the spec words it (claim C4):
strip the literal substrings "calculate", "calculator", and "=" from the
lowercased text and trim whitespace; default to "2+2" if the result is
empty.  Written from the spec sentence, for comparison with the code's
extraction in `classifyEvents`. -/
def specCalcExpression (cl : String) : String :=
  let stripped :=
    pyStrip (pyRemove (pyRemove (pyRemove cl "calculate") "calculator") "=")
  if stripped == "" then "2+2" else stripped

/-! ## General lemmas about sending and the step function -/

theorem serializeOk_of_no_live (h : List Entry) (e : Event)
    (he : entryLiveRef (.outbound e) = false) : serializeOk h e = true := by
  cases e <;> simp_all [serializeOk, entryLiveRef]

theorem send_message_of_no_live (s : Session) (e : Event)
    (he : entryLiveRef (.outbound e) = false) :
    send_message s e = .ok { s with history := s.history ++ [.outbound e] } := by
  simp [send_message, serializeOk_of_no_live _ _ he]

theorem sendAll_of_no_live (s : Session) (evs : List Event)
    (h : ∀ e ∈ evs, entryLiveRef (.outbound e) = false) :
    sendAll s evs = .ok ⟨s.history ++ evs.map .outbound, s.nextId⟩ evs := by
  induction evs generalizing s with
  | nil => simp [sendAll]
  | cons e rest ih =>
    have h1 := send_message_of_no_live s e (h e (by simp))
    have h2 := ih { s with history := s.history ++ [.outbound e] }
      (fun x hx => h x (by simp [hx]))
    simp [sendAll, h1, h2]

theorem send_message_ok_inv {s s' : Session} {e : Event}
    (h : send_message s e = .ok s') :
    s' = { s with history := s.history ++ [.outbound e] } := by
  simp only [send_message] at h
  split at h
  · cases h; rfl
  · cases h

theorem sendAll_ok_inv {evs : List Event} :
    ∀ {s s' : Session} {em : List Event}, sendAll s evs = .ok s' em →
      em = evs ∧ s' = ⟨s.history ++ evs.map .outbound, s.nextId⟩ := by
  induction evs with
  | nil =>
    intro s s' em h
    rw [sendAll] at h
    cases h
    exact ⟨rfl, by simp⟩
  | cons e rest ih =>
    intro s s' em h
    rw [sendAll] at h
    revert h
    cases hs : send_message s e with
    | error err => intro h; simp at h
    | ok s1 =>
      intro h
      dsimp only at h
      cases hrest : sendAll s1 rest with
      | fault em2 err => rw [hrest] at h; simp at h
      | ok s2 em2 =>
        rw [hrest] at h
        simp only [] at h
        cases h
        obtain ⟨rfl, rfl⟩ := ih hrest
        obtain rfl := send_message_ok_inv hs
        simp

theorem websocket_step_of_handle_ok (s : Session) (fs : List (String × JVal))
    (evs : List Event) (n' : Nat)
    (hh : handle fs s.nextId = ((evs, none), n'))
    (hl : ∀ e ∈ evs, entryLiveRef (.outbound e) = false) :
    websocket_step s (.obj fs) =
      .ok ⟨s.history ++ .inbound (.obj fs) :: evs.map .outbound, n'⟩ evs := by
  have hsend := sendAll_of_no_live ⟨s.history ++ [.inbound (.obj fs)], n'⟩ evs hl
  simp [websocket_step, hh, hsend]

theorem websocket_step_of_handle_fault (s : Session) (fs : List (String × JVal))
    (evs : List Event) (n' : Nat) (err : PyErr)
    (hh : handle fs s.nextId = ((evs, some err), n'))
    (hl : ∀ e ∈ evs, entryLiveRef (.outbound e) = false) :
    websocket_step s (.obj fs) = .fault evs err := by
  have hsend := sendAll_of_no_live ⟨s.history ++ [.inbound (.obj fs)], n'⟩ evs hl
  simp [websocket_step, hh, hsend]

theorem filterMap_entryInbound_outs (em : List Event) :
    (em.map Entry.outbound).filterMap entryInbound = [] := by
  induction em <;> simp_all [entryInbound]

theorem filterMap_entryOutbound_outs (em : List Event) :
    (em.map Entry.outbound).filterMap entryOutbound = em := by
  induction em <;> simp_all [entryOutbound]

theorem filterMap_entryInbound_comp (em : List Event) :
    em.filterMap (entryInbound ∘ Entry.outbound) = [] := by
  induction em <;> simp_all [entryInbound, Function.comp]

theorem filterMap_entryOutbound_comp (em : List Event) :
    em.filterMap (entryOutbound ∘ Entry.outbound) = em := by
  induction em <;> simp_all [entryOutbound, Function.comp]

theorem websocket_step_ok_history {s : Session} {m : JVal} {s' : Session}
    {em : List Event} (h : websocket_step s m = .ok s' em) :
    s'.history = s.history ++ .inbound m :: em.map .outbound := by
  cases m with
  | obj fs =>
    simp only [websocket_step] at h
    cases hh : handle fs s.nextId with
    | mk p n' =>
      cases p with
      | mk evs f =>
        rw [hh] at h
        dsimp only at h
        cases hsend : sendAll ⟨s.history ++ [.inbound (.obj fs)], n'⟩ evs with
        | fault em2 err => rw [hsend] at h; simp at h
        | ok s2 em2 =>
          rw [hsend] at h
          dsimp only at h
          cases f with
          | none =>
            dsimp only at h
            cases h
            obtain ⟨rfl, rfl⟩ := sendAll_ok_inv hsend
            simp
          | some err => dsimp only at h; cases h
  | null => simp [websocket_step] at h
  | bool b => simp [websocket_step] at h
  | num n => simp [websocket_step] at h
  | str t => simp [websocket_step] at h
  | arr xs => simp [websocket_step] at h

theorem websocket_run_history (ms : List JVal) :
    ∀ {s s' : Session} {em : List Event}, websocket_run s ms = .ok s' em →
      s'.history.filterMap entryInbound = s.history.filterMap entryInbound ++ ms
    ∧ s'.history.filterMap entryOutbound = s.history.filterMap entryOutbound ++ em
    ∧ s'.history.length = s.history.length + ms.length + em.length := by
  induction ms with
  | nil =>
    intro s s' em h
    rw [websocket_run] at h
    cases h
    simp
  | cons m rest ih =>
    intro s s' em h
    rw [websocket_run] at h
    revert h
    cases hstep : websocket_step s m with
    | fault em2 err => intro h; simp at h
    | ok s1 em1 =>
      intro h
      dsimp only at h
      cases hrun : websocket_run s1 rest with
      | fault em2 err => rw [hrun] at h; simp at h
      | ok s2 em2 =>
        rw [hrun] at h
        dsimp only at h
        cases h
        have hh := websocket_step_ok_history hstep
        obtain ⟨hi, ho, hlen⟩ := ih hrun
        refine ⟨?_, ?_, ?_⟩
        · rw [hi, hh]
          simp [List.filterMap_append, entryInbound, filterMap_entryInbound_outs,
            filterMap_entryInbound_comp]
        · rw [ho, hh]
          simp [List.filterMap_append, entryInbound, filterMap_entryOutbound_outs,
            entryOutbound, filterMap_entryOutbound_comp]
        · rw [hlen, hh]
          simp
          omega

/-! ## Character-level lemmas: an operator character survives stripping -/

/-- A matched pattern's characters all occur in the scanned list. -/
theorem chHeadMatch_mem (pat : List Char) :
    ∀ l, chHeadMatch pat l = true → ∀ c ∈ pat, c ∈ l := by
  induction pat with
  | nil => intro l _ c hc; cases hc
  | cons a as ih =>
    intro l h c hc
    cases l with
    | nil => simp [chHeadMatch] at h
    | cons b bs =>
      simp only [chHeadMatch, Bool.and_eq_true, beq_iff_eq] at h
      obtain ⟨rfl, h2⟩ := h
      rcases List.mem_cons.mp hc with rfl | hc2
      · exact List.mem_cons_self _ _
      · exact List.mem_cons_of_mem _ (ih bs h2 c hc2)

/-- Conversely, the first `pat.length` characters of a matched list all
come from the pattern. -/
theorem chHeadMatch_take (pat : List Char) :
    ∀ l, chHeadMatch pat l = true → ∀ c ∈ l.take pat.length, c ∈ pat := by
  induction pat with
  | nil => intro l _ c hc; simp at hc
  | cons a as ih =>
    intro l h c hc
    cases l with
    | nil => simp at hc
    | cons b bs =>
      simp only [chHeadMatch, Bool.and_eq_true, beq_iff_eq] at h
      obtain ⟨rfl, h2⟩ := h
      simp only [List.length_cons, List.take_succ_cons] at hc
      rcases List.mem_cons.mp hc with rfl | hc2
      · exact List.mem_cons_self _ _
      · exact List.mem_cons_of_mem _ (ih bs h2 c hc2)

/-- A character outside the pattern survives `chRemoveAux` (characters at
skip positions belong to a matched occurrence, hence to the pattern). -/
theorem mem_chRemoveAux (p : Char) (ps : List Char) (c : Char)
    (hc : c ∉ p :: ps) :
    ∀ (k : Nat) (l : List Char), c ∈ l.drop k → c ∈ chRemoveAux p ps k l := by
  intro k l
  induction k, l using chRemoveAux.induct p ps with
  | case1 k => intro h; simp at h
  | case2 k d rest ih =>
    intro h
    rw [chRemoveAux]
    exact ih (by simpa using h)
  | case3 d rest hmatch ih =>
    intro h
    rw [chRemoveAux, if_pos hmatch]
    have hm := hmatch
    simp only [chHeadMatch, Bool.and_eq_true, beq_iff_eq] at hm
    obtain ⟨rfl, h2⟩ := hm
    rcases List.mem_cons.mp (by simpa using h) with rfl | h3
    · exact absurd (List.mem_cons_self _ _) hc
    · rcases List.mem_append.mp
        ((List.take_append_drop ps.length rest) ▸ h3) with h4 | h4
      · exact absurd (List.mem_cons_of_mem _ (chHeadMatch_take ps rest h2 c h4)) hc
      · exact ih h4
  | case4 d rest hmatch ih =>
    intro h
    rw [chRemoveAux, if_neg hmatch]
    rcases List.mem_cons.mp (by simpa using h) with rfl | h3
    · exact List.mem_cons_self _ _
    · exact List.mem_cons_of_mem _ (ih (by simpa using h3))

/-- A character outside the removed pattern survives `chRemove`. -/
theorem mem_chRemove (p : Char) (ps : List Char) (c : Char) (hc : c ∉ p :: ps) :
    ∀ l, c ∈ l → c ∈ chRemove p ps l := by
  intro l h
  exact mem_chRemoveAux p ps c hc 0 l (by simpa using h)

/-- An element failing the predicate survives `dropWhile`. -/
theorem mem_dropWhile_of_neg (p : Char → Bool) (c : Char) (hc : p c = false) :
    ∀ l : List Char, c ∈ l → c ∈ l.dropWhile p := by
  intro l
  induction l with
  | nil => intro h; cases h
  | cons a as ih =>
    intro h
    cases hpa : p a with
    | false => simpa [List.dropWhile_cons, hpa] using h
    | true =>
      simp only [List.dropWhile_cons, hpa, if_true]
      rcases List.mem_cons.mp h with rfl | h2
      · rw [hpa] at hc; cases hc
      · exact ih h2

/-- A non-whitespace character survives Python `strip()`. -/
theorem mem_pyStrip (s : String) (c : Char) (hc : c ∈ s.data)
    (hw : pyWs c = false) : c ∈ (pyStrip s).data := by
  show c ∈ ((s.data.dropWhile pyWs).reverse.dropWhile pyWs).reverse
  rw [List.mem_reverse]
  exact mem_dropWhile_of_neg pyWs c hw _
    (List.mem_reverse.mpr (mem_dropWhile_of_neg pyWs c hw _ hc))

/-- A character outside the removed pattern survives Python `replace`. -/
theorem mem_pyRemove (s pat : String) (c : Char) (hc : c ∈ s.data)
    (hp : c ∉ pat.data) : c ∈ (pyRemove s pat).data := by
  rw [pyRemove]
  split
  · exact hc
  · next p ps hpat =>
    exact mem_chRemove p ps c (hpat ▸ hp) s.data hc

/-- If a pattern occurs in a list, every pattern character occurs in it. -/
theorem mem_of_chAfter (pat : List Char) :
    ∀ l, (chAfter pat l).isSome = true → ∀ c ∈ pat, c ∈ l := by
  intro l
  induction l with
  | nil =>
    intro h c hc
    rw [chAfter] at h
    split at h
    · next hm =>
      cases pat with
      | nil => cases hc
      | cons a as => simp [chHeadMatch] at hm
    · simp at h
  | cons b bs ih =>
    intro h c hc
    rw [chAfter] at h
    split at h
    · next hm => exact chHeadMatch_mem pat _ hm c hc
    · exact List.mem_cons_of_mem _ (ih h c hc)

/-- Python `pat in s` implies every character of `pat` occurs in `s`. -/
theorem mem_of_pyContains (s pat : String) (h : pyContains s pat = true) :
    ∀ c ∈ pat.data, c ∈ s.data :=
  mem_of_chAfter pat.data s.data h

/-- When the expression-extraction loop fires (an operator character among
`+ - * /` occurs in the lowercased text), the stripped expression is never
empty: the operator character survives removal of `"="`, `"calculate"`,
`"calculator"` and whitespace trimming.  Hence the code's `or "2+2"`
fallback on an empty stripped string is dead in that branch. -/
theorem calcStripped_ne_empty (cl : String) (h : hasArithChar cl = true) :
    ¬ calcStripped cl = "" := by
  have hop : ∃ c, c ∈ cl.data ∧ (c = '+' ∨ c = '-' ∨ c = '*' ∨ c = '/') := by
    simp only [hasArithChar, Bool.or_eq_true] at h
    rcases h with ((h | h) | h) | h
    · exact ⟨'+', mem_of_pyContains cl "+" h '+' (by decide), Or.inl rfl⟩
    · exact ⟨'-', mem_of_pyContains cl "-" h '-' (by decide), Or.inr (Or.inl rfl)⟩
    · exact ⟨'*', mem_of_pyContains cl "*" h '*' (by decide),
        Or.inr (Or.inr (Or.inl rfl))⟩
    · exact ⟨'/', mem_of_pyContains cl "/" h '/' (by decide),
        Or.inr (Or.inr (Or.inr rfl))⟩
  obtain ⟨c, hc, hcop⟩ := hop
  have h1 : c ∉ ("=" : String).data := by
    rcases hcop with rfl | rfl | rfl | rfl <;> decide
  have h2 : c ∉ ("calculate" : String).data := by
    rcases hcop with rfl | rfl | rfl | rfl <;> decide
  have h3 : c ∉ ("calculator" : String).data := by
    rcases hcop with rfl | rfl | rfl | rfl <;> decide
  have hw : pyWs c = false := by
    rcases hcop with rfl | rfl | rfl | rfl <;> decide
  have hmem : c ∈ (calcStripped cl).data :=
    mem_pyStrip _ c
      (mem_pyRemove _ _ c (mem_pyRemove _ _ c (mem_pyRemove _ _ c hc h1) h2) h3) hw
  intro heq
  rw [heq] at hmem
  cases hmem

/-! ## Branch-level characterizations of one loop iteration -/

/-- A well-shaped `ping` emits exactly one `pong` echoing the extracted
timestamp and touches nothing else. -/
theorem ping_step (s : Session) (pfs : List (String × JVal)) (T : JVal)
    (h1 : pfs.lookup "type" = some (.str "ping"))
    (h2 : dataGetD pfs "timestamp" .null = .ok T) :
    websocket_step s (.obj pfs) =
      .ok ⟨s.history ++ [.inbound (.obj pfs), .outbound (.pong T)], s.nextId⟩
        [.pong T] := by
  have hh : handle pfs s.nextId = (([.pong T], none), s.nextId) := by
    simp [handle, tyIs, h1, h2]
  have := websocket_step_of_handle_ok s pfs [.pong T] s.nextId hh
    (by simp [entryLiveRef])
  simpa using this

/-- A triggered weather `user_message` whose remainder after the first
`"in"` has a first token emits the three-event sequence with that token as
the location. -/
theorem step_user_weather_tok (s : Session) (fs : List (String × JVal))
    (content tok : String) (rest : List String)
    (h1 : fs.lookup "type" = some (.str "user_message"))
    (h2 : dataGetD fs "content" (.str "") = .ok (.str content))
    (hw : weatherTrigger (pyLower content) = true)
    (hin : pyContains (pyLower content) "in" = true)
    (htok : pySplitWs (pyStrip (pySplitAfter (pyLower content) "in")) = tok :: rest) :
    ∃ s', websocket_step s (.obj fs) = .ok s'
        [.thinkingStarted ((fs.lookup "message_id").getD .null),
         .toolRequest s.nextId "weather_tool" "GetWeather" [("location", tok)]
           ((fs.lookup "message_id").getD .null),
         .thinkingComplete ((fs.lookup "message_id").getD .null)]
      ∧ s'.nextId = s.nextId + 1 := by
  have hh : handle fs s.nextId =
      (([.thinkingStarted ((fs.lookup "message_id").getD .null),
         .toolRequest s.nextId "weather_tool" "GetWeather" [("location", tok)]
           ((fs.lookup "message_id").getD .null),
         .thinkingComplete ((fs.lookup "message_id").getD .null)], none),
        s.nextId + 1) := by
    simp [handle, tyIs, h1, handleUserMessage, h2, classifyEvents, hw, hin, htok]
  exact ⟨_, websocket_step_of_handle_ok s fs _ _ hh (by simp [entryLiveRef]), rfl⟩

/-- A triggered weather `user_message` with no `"in"` substring (trigger
via `"city"`) falls back to the `"New York"` default location. -/
theorem step_user_weather_default (s : Session) (fs : List (String × JVal))
    (content : String)
    (h1 : fs.lookup "type" = some (.str "user_message"))
    (h2 : dataGetD fs "content" (.str "") = .ok (.str content))
    (hw : weatherTrigger (pyLower content) = true)
    (hin : pyContains (pyLower content) "in" = false) :
    ∃ s', websocket_step s (.obj fs) = .ok s'
        [.thinkingStarted ((fs.lookup "message_id").getD .null),
         .toolRequest s.nextId "weather_tool" "GetWeather" [("location", "New York")]
           ((fs.lookup "message_id").getD .null),
         .thinkingComplete ((fs.lookup "message_id").getD .null)]
      ∧ s'.nextId = s.nextId + 1 := by
  have hh : handle fs s.nextId =
      (([.thinkingStarted ((fs.lookup "message_id").getD .null),
         .toolRequest s.nextId "weather_tool" "GetWeather" [("location", "New York")]
           ((fs.lookup "message_id").getD .null),
         .thinkingComplete ((fs.lookup "message_id").getD .null)], none),
        s.nextId + 1) := by
    simp [handle, tyIs, h1, handleUserMessage, h2, classifyEvents, hw, hin]
  exact ⟨_, websocket_step_of_handle_ok s fs _ _ hh (by simp [entryLiveRef]), rfl⟩

/-- A triggered weather `user_message` whose remainder after the first
`"in"` is empty or whitespace-only raises `IndexError` at `split()[0]`,
after `thinking_started` already went out: the session faults. -/
theorem step_user_weather_fault (s : Session) (fs : List (String × JVal))
    (content : String)
    (h1 : fs.lookup "type" = some (.str "user_message"))
    (h2 : dataGetD fs "content" (.str "") = .ok (.str content))
    (hw : weatherTrigger (pyLower content) = true)
    (hin : pyContains (pyLower content) "in" = true)
    (hnil : pySplitWs (pyStrip (pySplitAfter (pyLower content) "in")) = []) :
    websocket_step s (.obj fs) =
      .fault [.thinkingStarted ((fs.lookup "message_id").getD .null)] .indexError := by
  have hh : handle fs s.nextId =
      (([.thinkingStarted ((fs.lookup "message_id").getD .null)],
        some .indexError), s.nextId) := by
    simp [handle, tyIs, h1, handleUserMessage, h2, classifyEvents, hw, hin, hnil]
  exact websocket_step_of_handle_fault s fs _ _ _ hh (by simp [entryLiveRef])

/-- A calculator-triggered `user_message` emits the three-event sequence
with the code's extracted expression. -/
theorem step_user_calc (s : Session) (fs : List (String × JVal)) (content : String)
    (h1 : fs.lookup "type" = some (.str "user_message"))
    (h2 : dataGetD fs "content" (.str "") = .ok (.str content))
    (hw : weatherTrigger (pyLower content) = false)
    (hc : calcTrigger (pyLower content) = true) :
    ∃ s', websocket_step s (.obj fs) = .ok s'
        [.thinkingStarted ((fs.lookup "message_id").getD .null),
         .toolRequest s.nextId "calculator_tool" "Calculate"
           [("expression",
             if hasArithChar (pyLower content) then
               if calcStripped (pyLower content) == "" then "2+2"
               else calcStripped (pyLower content)
             else "2+2")]
           ((fs.lookup "message_id").getD .null),
         .thinkingComplete ((fs.lookup "message_id").getD .null)]
      ∧ s'.nextId = s.nextId + 1 := by
  have hh : handle fs s.nextId =
      (([.thinkingStarted ((fs.lookup "message_id").getD .null),
         .toolRequest s.nextId "calculator_tool" "Calculate"
           [("expression",
             if hasArithChar (pyLower content) then
               if calcStripped (pyLower content) == "" then "2+2"
               else calcStripped (pyLower content)
             else "2+2")]
           ((fs.lookup "message_id").getD .null),
         .thinkingComplete ((fs.lookup "message_id").getD .null)], none),
        s.nextId + 1) := by
    simp only [handle, tyIs, h1, handleUserMessage, h2, classifyEvents, hw, hc]
    simp [tyIs]
  exact ⟨_, websocket_step_of_handle_ok s fs _ _ hh (by simp [entryLiveRef]), rfl⟩

/-- An untriggered `user_message` emits the three-event sequence with the
plain echo response. -/
theorem step_user_echo (s : Session) (fs : List (String × JVal)) (content : String)
    (h1 : fs.lookup "type" = some (.str "user_message"))
    (h2 : dataGetD fs "content" (.str "") = .ok (.str content))
    (hw : weatherTrigger (pyLower content) = false)
    (hc : calcTrigger (pyLower content) = false) :
    ∃ s', websocket_step s (.obj fs) = .ok s'
        [.thinkingStarted ((fs.lookup "message_id").getD .null),
         .assistantEcho
           ("You said: " ++ content ++
             "\n\nTip: Try asking about weather in a city or to calculate something!")
           s.nextId ((fs.lookup "message_id").getD .null),
         .thinkingComplete ((fs.lookup "message_id").getD .null)]
      ∧ s'.nextId = s.nextId + 1 := by
  have hh : handle fs s.nextId =
      (([.thinkingStarted ((fs.lookup "message_id").getD .null),
         .assistantEcho
           ("You said: " ++ content ++
             "\n\nTip: Try asking about weather in a city or to calculate something!")
           s.nextId ((fs.lookup "message_id").getD .null),
         .thinkingComplete ((fs.lookup "message_id").getD .null)], none),
        s.nextId + 1) := by
    simp [handle, tyIs, h1, handleUserMessage, h2, classifyEvents, hw, hc]
  exact ⟨_, websocket_step_of_handle_ok s fs _ _ hh (by simp [entryLiveRef]), rfl⟩

/-! ## The claims -/

/-- Claim C1 (refuted — code bug): routing `request_history` never emits a
`history_response` at all.  The handler builds a response whose payload is
the live history list, `send_message` appends that response to the same
list before serializing it, so `json.dumps` always hits a circular
reference: the session emits nothing and faults, for every session state. -/
theorem requestHistory_faults (s : Session) (fs : List (String × JVal))
    (h : fs.lookup "type" = some (.str "request_history")) :
    websocket_step s (.obj fs) = .fault [] .jsonCircular := by
  have hh : handle fs s.nextId = (([.historyRsp], none), s.nextId) := by
    simp [handle, tyIs, h]
  simp [websocket_step, hh, sendAll, send_message, serializeOk, entryLiveRef]

/-- Witness for C1: a concrete `request_history` message faults. -/
theorem requestHistory_faults_witness :
    websocket_step ⟨[], 0⟩ (.obj [("type", .str "request_history")]) =
      .fault [] .jsonCircular :=
  requestHistory_faults ⟨[], 0⟩ [("type", .str "request_history")] rfl

/-- Claim C2, counterexample: the user text "weather in" triggers the
weather classification, yet location extraction does not succeed — the
remainder after the first "in" is empty, `split()[0]` raises `IndexError`
(the failure branch is reachable), and the session faults after emitting
only `thinking_started`; the "New York" default is not applied. -/
theorem weather_extraction_cex :
    websocket_step ⟨[], 0⟩ (.obj [("type", .str "user_message"),
        ("data", .obj [("content", .str "weather in")])]) =
      .fault [.thinkingStarted .null] .indexError := by
  rfl

/-- Claim C2 (amended): for a weather-triggered `user_message`, when the
remainder after the first "in" has a whitespace-delimited token, extraction
succeeds with that token as the location; the "New York" default applies
exactly when the text has no "in" substring (trigger via "city"); and when
"in" is present but the remainder is empty or whitespace-only, extraction
fails with `IndexError` and the session faults — the failure branch is
reachable, not unreachable as claimed. -/
theorem weather_extraction (s : Session) (fs : List (String × JVal))
    (content : String)
    (h1 : fs.lookup "type" = some (.str "user_message"))
    (h2 : dataGetD fs "content" (.str "") = .ok (.str content))
    (hw : weatherTrigger (pyLower content) = true) :
    (∀ tok rest, pyContains (pyLower content) "in" = true →
        pySplitWs (pyStrip (pySplitAfter (pyLower content) "in")) = tok :: rest →
        ∃ s', websocket_step s (.obj fs) = .ok s'
          [.thinkingStarted ((fs.lookup "message_id").getD .null),
           .toolRequest s.nextId "weather_tool" "GetWeather" [("location", tok)]
             ((fs.lookup "message_id").getD .null),
           .thinkingComplete ((fs.lookup "message_id").getD .null)])
  ∧ (pyContains (pyLower content) "in" = false →
        ∃ s', websocket_step s (.obj fs) = .ok s'
          [.thinkingStarted ((fs.lookup "message_id").getD .null),
           .toolRequest s.nextId "weather_tool" "GetWeather"
             [("location", "New York")]
             ((fs.lookup "message_id").getD .null),
           .thinkingComplete ((fs.lookup "message_id").getD .null)])
  ∧ (pyContains (pyLower content) "in" = true →
        pySplitWs (pyStrip (pySplitAfter (pyLower content) "in")) = [] →
        websocket_step s (.obj fs) =
          .fault [.thinkingStarted ((fs.lookup "message_id").getD .null)]
            .indexError) := by
  refine ⟨?_, ?_, ?_⟩
  · intro tok rest hin htok
    obtain ⟨s', hs, _⟩ := step_user_weather_tok s fs content tok rest h1 h2 hw hin htok
    exact ⟨s', hs⟩
  · intro hin
    obtain ⟨s', hs, _⟩ := step_user_weather_default s fs content h1 h2 hw hin
    exact ⟨s', hs⟩
  · intro hin hnil
    exact step_user_weather_fault s fs content h1 h2 hw hin hnil

/-- Witness for C2: "weather in London" extracts the token "london". -/
theorem weather_extraction_witness :
    ∃ s', websocket_step ⟨[], 0⟩ (.obj [("type", .str "user_message"),
        ("message_id", .str "w1"),
        ("data", .obj [("content", .str "weather in London")])]) =
      .ok s'
        [.thinkingStarted (.str "w1"),
         .toolRequest 0 "weather_tool" "GetWeather" [("location", "london")]
           (.str "w1"),
         .thinkingComplete (.str "w1")] :=
  (weather_extraction ⟨[], 0⟩
      [("type", .str "user_message"), ("message_id", .str "w1"),
        ("data", .obj [("content", .str "weather in London")])]
      "weather in London" rfl rfl rfl).1 "london" [] rfl rfl

/-- Claim C3, counterexample: classifying "What's the weather in Paris?"
extracts the location "paris?" — the first whitespace-delimited token after
"in" keeps the trailing question mark — not "paris" as claimed. -/
theorem weather_paris_cex :
    (∃ s', websocket_step ⟨[], 0⟩ (.obj [("type", .str "user_message"),
        ("message_id", .str "p1"),
        ("data", .obj [("content", .str "What's the weather in Paris?")])]) =
      .ok s'
        [.thinkingStarted (.str "p1"),
         .toolRequest 0 "weather_tool" "GetWeather" [("location", "paris?")]
           (.str "p1"),
         .thinkingComplete (.str "p1")])
  ∧ ("paris?" : String) ≠ "paris" :=
  ⟨⟨_, by rfl⟩, by decide⟩

/-- Claim C3 (amended): classifying "What's the weather in Paris?" selects
the GetWeather tool and the emitted `tool_request` carries the arguments
location = "paris?", the first whitespace-delimited token after the first
"in", punctuation included. -/
theorem weather_paris :
    ∃ s', websocket_step ⟨[], 0⟩ (.obj [("type", .str "user_message"),
        ("message_id", .str "p2"),
        ("data", .obj [("content", .str "What's the weather in Paris?")])]) =
      .ok s'
        [.thinkingStarted (.str "p2"),
         .toolRequest 0 "weather_tool" "GetWeather" [("location", "paris?")]
           (.str "p2"),
         .thinkingComplete (.str "p2")] :=
  ⟨_, by rfl⟩

/-- Claim C4, counterexample: "calculate two plus two" triggers the
calculator, its stripped text "two plus two" is non-empty, yet the code
emits the default expression "2+2" — the extraction only runs when an
operator character among `+ - * /` occurs, which the claim's formula (the
spec's stripping rule, `specCalcExpression`) does not predict. -/
theorem calculator_expression_cex :
    (∃ s', websocket_step ⟨[], 0⟩ (.obj [("type", .str "user_message"),
        ("data", .obj [("content", .str "calculate two plus two")])]) =
      .ok s'
        [.thinkingStarted .null,
         .toolRequest 0 "calculator_tool" "Calculate" [("expression", "2+2")] .null,
         .thinkingComplete .null])
  ∧ specCalcExpression (pyLower "calculate two plus two") = "two plus two"
  ∧ ("2+2" : String) ≠ "two plus two" :=
  ⟨⟨_, by rfl⟩, by rfl, by decide⟩

/-- Claim C4 (amended): for a calculator-triggered `user_message`, the
emitted expression is the lowercased text with "=", then "calculate", then
"calculator" removed and whitespace-trimmed whenever an operator character
among `+ - * /` occurs in the text, and it defaults to "2+2" exactly when
no such operator character occurs (the stripped text is never consulted
then); when an operator occurs the stripped text is provably non-empty, so
the empty-string fallback is dead.  In particular "calculate 2+2" yields
"2+2" (see the witness). -/
theorem calculator_expression (s : Session) (fs : List (String × JVal))
    (content : String)
    (h1 : fs.lookup "type" = some (.str "user_message"))
    (h2 : dataGetD fs "content" (.str "") = .ok (.str content))
    (hw : weatherTrigger (pyLower content) = false)
    (hc : calcTrigger (pyLower content) = true) :
    (∃ s', websocket_step s (.obj fs) = .ok s'
        [.thinkingStarted ((fs.lookup "message_id").getD .null),
         .toolRequest s.nextId "calculator_tool" "Calculate"
           [("expression",
             if hasArithChar (pyLower content) then calcStripped (pyLower content)
             else "2+2")]
           ((fs.lookup "message_id").getD .null),
         .thinkingComplete ((fs.lookup "message_id").getD .null)])
  ∧ (hasArithChar (pyLower content) = true →
      calcStripped (pyLower content) ≠ "") := by
  refine ⟨?_, fun hA => calcStripped_ne_empty _ hA⟩
  obtain ⟨s', hs, _⟩ := step_user_calc s fs content h1 h2 hw hc
  refine ⟨s', ?_⟩
  rw [hs]
  congr 2
  cases hA : hasArithChar (pyLower content) with
  | false => simp
  | true =>
    have hne : (calcStripped (pyLower content) == "") = false := by
      rw [beq_eq_false_iff_ne]
      exact calcStripped_ne_empty _ hA
    simp [hne]

/-- Witness for C4: "calculate 2+2" yields the expression "2+2". -/
theorem calculator_expression_witness :
    (∃ s', websocket_step ⟨[], 0⟩ (.obj [("type", .str "user_message"),
        ("data", .obj [("content", .str "calculate 2+2")])]) =
      .ok s'
        [.thinkingStarted .null,
         .toolRequest 0 "calculator_tool" "Calculate" [("expression", "2+2")] .null,
         .thinkingComplete .null])
  ∧ (hasArithChar (pyLower "calculate 2+2") = true →
      calcStripped (pyLower "calculate 2+2") ≠ "") :=
  calculator_expression ⟨[], 0⟩
    [("type", .str "user_message"), ("data", .obj [("content", .str "calculate 2+2")])]
    "calculate 2+2" rfl rfl rfl rfl

/-- Claim C5, counterexample: the `user_message` "check the weather in   "
does not produce the claimed three-event sequence: only `thinking_started`
is emitted, then the weather extraction raises `IndexError` and the session
faults with no `tool_request` or `assistant_message` and no
`thinking_complete`. -/
theorem user_message_sequence_cex :
    websocket_step ⟨[], 0⟩ (.obj [("type", .str "user_message"),
        ("message_id", .str "m9"),
        ("data", .obj [("content", .str "check the weather in   ")])]) =
      .fault [.thinkingStarted (.str "m9")] .indexError
  ∧ (∀ (s' : Session) (es : List Event),
      websocket_step ⟨[], 0⟩ (.obj [("type", .str "user_message"),
          ("message_id", .str "m9"),
          ("data", .obj [("content", .str "check the weather in   ")])]) ≠
        .ok s' es) := by
  refine ⟨by rfl, ?_⟩
  intro s' es h
  rw [show websocket_step ⟨[], 0⟩ (.obj [("type", .str "user_message"),
      ("message_id", .str "m9"),
      ("data", .obj [("content", .str "check the weather in   ")])]) =
    .fault [.thinkingStarted (.str "m9")] .indexError from rfl] at h
  cases h

/-- Claim C5 (amended): for every `user_message` with a string content that
does not hit the weather-extraction fault (text triggering the weather
branch with "in" present and only whitespace after the first "in"), the
emitted sequence is exactly `thinking_started`, then exactly one of
`tool_request` or `assistant_message`, then `thinking_complete`, in that
order; `thinking_started` and `thinking_complete` carry the inbound
`message_id`, the middle event correlates to it too, and a `tool_request`
carries as its top-level `messageId` the freshly drawn uuid token
`s.nextId` (one uuid is consumed: the counter advances by one), distinct by
construction from the client-supplied nested `data.tool.message_id`. -/
theorem user_message_sequence (s : Session) (fs : List (String × JVal))
    (content : String)
    (h1 : fs.lookup "type" = some (.str "user_message"))
    (h2 : dataGetD fs "content" (.str "") = .ok (.str content))
    (hsafe : ¬(weatherTrigger (pyLower content) = true ∧
        pyContains (pyLower content) "in" = true ∧
        pySplitWs (pyStrip (pySplitAfter (pyLower content) "in")) = [])) :
    ∃ s' ev, websocket_step s (.obj fs) = .ok s'
        [.thinkingStarted ((fs.lookup "message_id").getD .null), ev,
         .thinkingComplete ((fs.lookup "message_id").getD .null)]
      ∧ s'.nextId = s.nextId + 1
      ∧ ((∃ tid tname args, ev = .toolRequest s.nextId tid tname args
            ((fs.lookup "message_id").getD .null))
        ∨ (∃ c, ev = .assistantEcho c s.nextId
            ((fs.lookup "message_id").getD .null))) := by
  cases hw : weatherTrigger (pyLower content) with
  | true =>
    cases hin : pyContains (pyLower content) "in" with
    | false =>
      obtain ⟨s', hs, hn⟩ := step_user_weather_default s fs content h1 h2 hw hin
      exact ⟨s', _, hs, hn, Or.inl ⟨_, _, _, rfl⟩⟩
    | true =>
      cases hsp : pySplitWs (pyStrip (pySplitAfter (pyLower content) "in")) with
      | nil => exact absurd ⟨hw, hin, hsp⟩ hsafe
      | cons tok rest =>
        obtain ⟨s', hs, hn⟩ :=
          step_user_weather_tok s fs content tok rest h1 h2 hw hin hsp
        exact ⟨s', _, hs, hn, Or.inl ⟨_, _, _, rfl⟩⟩
  | false =>
    cases hc : calcTrigger (pyLower content) with
    | true =>
      obtain ⟨s', hs, hn⟩ := step_user_calc s fs content h1 h2 hw hc
      exact ⟨s', _, hs, hn, Or.inl ⟨_, _, _, rfl⟩⟩
    | false =>
      obtain ⟨s', hs, hn⟩ := step_user_echo s fs content h1 h2 hw hc
      exact ⟨s', _, hs, hn, Or.inr ⟨_, rfl⟩⟩

/-- Witness for C5: "weather in Tokyo please" produces the full
three-event lifecycle with a tool request in the middle. -/
theorem user_message_sequence_witness :
    ∃ s' ev, websocket_step ⟨[], 0⟩ (.obj [("type", .str "user_message"),
        ("message_id", .str "m3"),
        ("data", .obj [("content", .str "weather in Tokyo please")])]) = .ok s'
        [.thinkingStarted ((List.lookup "message_id"
            [("type", JVal.str "user_message"), ("message_id", JVal.str "m3"),
             ("data", JVal.obj [("content", JVal.str "weather in Tokyo please")])]).getD
            .null), ev,
         .thinkingComplete ((List.lookup "message_id"
            [("type", JVal.str "user_message"), ("message_id", JVal.str "m3"),
             ("data", JVal.obj [("content", JVal.str "weather in Tokyo please")])]).getD
            .null)]
      ∧ s'.nextId = (Session.mk [] 0).nextId + 1
      ∧ ((∃ tid tname args, ev = .toolRequest (Session.mk [] 0).nextId tid tname args
            ((List.lookup "message_id"
              [("type", JVal.str "user_message"), ("message_id", JVal.str "m3"),
               ("data", JVal.obj [("content", JVal.str "weather in Tokyo please")])]).getD
              .null))
        ∨ (∃ c, ev = .assistantEcho c (Session.mk [] 0).nextId
            ((List.lookup "message_id"
              [("type", JVal.str "user_message"), ("message_id", JVal.str "m3"),
               ("data", JVal.obj [("content", JVal.str "weather in Tokyo please")])]).getD
              .null))) :=
  user_message_sequence ⟨[], 0⟩
    [("type", .str "user_message"), ("message_id", .str "m3"),
     ("data", .obj [("content", .str "weather in Tokyo please")])]
    "weather in Tokyo please" rfl rfl
    (by intro h; exact absurd h.2.2 (by decide))

/-- Claim C6: along any fault-free run of a session — connect (which sends
`connection_established`) followed by N inbound messages — every inbound
message is appended verbatim before its type-specific handling and every
outbound event is appended at emission time, so the history holds exactly
N + M entries, where M counts all outbound events of the session, and the
inbound (resp. outbound) subsequences of the history are exactly the
inbound messages (resp. emitted events) in chronological order. -/
theorem history_exactly_N_plus_M (cid : String) (ms : List JVal)
    (s' : Session) (em : List Event) (h : runSession cid ms = .ok s' em) :
    s'.history.length = ms.length + em.length
  ∧ s'.history.filterMap entryInbound = ms
  ∧ s'.history.filterMap entryOutbound = em := by
  have hstart : startSession cid =
      .ok ⟨[.outbound (.connectionEstablished cid)], 0⟩
        [.connectionEstablished cid] := rfl
  rw [runSession, hstart] at h
  dsimp only at h
  cases hrun : websocket_run ⟨[.outbound (.connectionEstablished cid)], 0⟩ ms with
  | fault em2 err => rw [hrun] at h; simp at h
  | ok s2 em2 =>
    rw [hrun] at h
    dsimp only at h
    cases h
    obtain ⟨hi, ho, hlen⟩ := websocket_run_history ms hrun
    refine ⟨?_, ?_, ?_⟩
    · rw [hlen]; simp; omega
    · rw [hi]; simp [entryInbound]
    · rw [ho]; simp [entryOutbound]

/-- Witness for C6: a session that processed one `ping` has three history
entries: `connection_established`, the inbound ping, the `pong`. -/
theorem history_exactly_N_plus_M_witness :
    (Session.mk [.outbound (.connectionEstablished "c0"),
        .inbound (.obj [("type", .str "ping")]), .outbound (.pong .null)]
        0).history.length
      = [JVal.obj [("type", .str "ping")]].length +
        [Event.connectionEstablished "c0", Event.pong .null].length
  ∧ (Session.mk [.outbound (.connectionEstablished "c0"),
        .inbound (.obj [("type", .str "ping")]), .outbound (.pong .null)]
        0).history.filterMap entryInbound = [JVal.obj [("type", .str "ping")]]
  ∧ (Session.mk [.outbound (.connectionEstablished "c0"),
        .inbound (.obj [("type", .str "ping")]), .outbound (.pong .null)]
        0).history.filterMap entryOutbound
      = [Event.connectionEstablished "c0", Event.pong .null] :=
  history_exactly_N_plus_M "c0" [.obj [("type", .str "ping")]] _ _ (by rfl)

/-- Claim C7: an inbound message whose `type` is none of the five known
values (including a missing `type`, read as Python `None`) makes the
session emit exactly one `error` event with code `UNKNOWN_MESSAGE_TYPE`
whose text carries the unrecognized value; no exception escapes, the
session stays open, and a subsequent well-shaped `ping` is processed
normally. -/
theorem unknown_type_error (s : Session) (fs : List (String × JVal))
    (h : knownType (fs.lookup "type") = false) :
    ∃ s', websocket_step s (.obj fs) =
        .ok s' [.errorEvent ("Unknown message type: " ++ tyText (fs.lookup "type"))
          "UNKNOWN_MESSAGE_TYPE"]
      ∧ (∀ (pfs : List (String × JVal)) (T : JVal),
          pfs.lookup "type" = some (.str "ping") →
          dataGetD pfs "timestamp" .null = .ok T →
          ∃ s'', websocket_step s' (.obj pfs) = .ok s'' [.pong T]) := by
  simp only [knownType, Bool.or_eq_false_iff] at h
  obtain ⟨⟨⟨⟨hp, hi⟩, hu⟩, ht⟩, hr⟩ := h
  have hh : handle fs s.nextId =
      (([.errorEvent ("Unknown message type: " ++ tyText (fs.lookup "type"))
          "UNKNOWN_MESSAGE_TYPE"], none), s.nextId) := by
    simp [handle, hp, hi, hu, ht, hr]
  refine ⟨_, websocket_step_of_handle_ok s fs _ _ hh (by simp [entryLiveRef]), ?_⟩
  intro pfs T h1 h2
  exact ⟨_, ping_step _ pfs T h1 h2⟩

/-- Witness for C7: a message with no `type` field yields the error event
with text "Unknown message type: None", and the session still answers a
later ping. -/
theorem unknown_type_error_witness :
    ∃ s', websocket_step ⟨[], 0⟩ (.obj [("data", .obj [])]) =
        .ok s' [.errorEvent ("Unknown message type: None") "UNKNOWN_MESSAGE_TYPE"]
      ∧ (∀ (pfs : List (String × JVal)) (T : JVal),
          pfs.lookup "type" = some (.str "ping") →
          dataGetD pfs "timestamp" .null = .ok T →
          ∃ s'', websocket_step s' (.obj pfs) = .ok s'' [.pong T]) :=
  unknown_type_error ⟨[], 0⟩ [("data", .obj [])] rfl

/-- Claim C8: a `ping` whose data object carries a timestamp `T` makes the
session emit a `pong` whose `data.timestamp` is the identical value `T`;
with the timestamp field absent (or the whole `data` field absent) the
pong's timestamp is Python `None`, serialized as JSON null. -/
theorem ping_echoes_timestamp (s : Session) (pfs : List (String × JVal)) :
    (∀ (ds : List (String × JVal)) (T : JVal),
        pfs.lookup "type" = some (.str "ping") →
        pfs.lookup "data" = some (.obj ds) →
        ds.lookup "timestamp" = some T →
        ∃ s', websocket_step s (.obj pfs) = .ok s' [.pong T])
  ∧ (∀ (ds : List (String × JVal)),
        pfs.lookup "type" = some (.str "ping") →
        pfs.lookup "data" = some (.obj ds) →
        ds.lookup "timestamp" = none →
        ∃ s', websocket_step s (.obj pfs) = .ok s' [.pong .null])
  ∧ (pfs.lookup "type" = some (.str "ping") →
        pfs.lookup "data" = none →
        ∃ s', websocket_step s (.obj pfs) = .ok s' [.pong .null]) := by
  refine ⟨?_, ?_, ?_⟩
  · intro ds T h1 h2 h3
    exact ⟨_, ping_step s pfs T h1 (by simp [dataGetD, h2, h3])⟩
  · intro ds h1 h2 h3
    exact ⟨_, ping_step s pfs .null h1 (by simp [dataGetD, h2, h3])⟩
  · intro h1 h2
    exact ⟨_, ping_step s pfs .null h1 (by simp [dataGetD, h2])⟩

/-- Witness for C8: a ping with timestamp 1712 gets a pong echoing 1712. -/
theorem ping_echoes_timestamp_witness :
    ∃ s', websocket_step ⟨[], 0⟩
        (.obj [("type", .str "ping"), ("data", .obj [("timestamp", .num 1712)])]) =
      .ok s' [.pong (.num 1712)] :=
  (ping_echoes_timestamp ⟨[], 0⟩
      [("type", .str "ping"), ("data", .obj [("timestamp", .num 1712)])]).1
    [("timestamp", .num 1712)] (.num 1712) rfl rfl rfl

/-- Claim C9: a `tool_response` whose nested tool data is a non-empty
object makes the session emit exactly one `assistant_message` whose content
is the template "I used the \x7btool_name\x7d tool and got: \x7btool_result\x7d"
instantiated with the tool object's name and result (with defaults "Tool"
and "No result" for missing fields); a missing or empty tool object emits
no event at all and the session continues. -/
theorem tool_response_behavior (s : Session) (fs : List (String × JVal)) :
    (∀ (ds ts : List (String × JVal)),
        fs.lookup "type" = some (.str "tool_response") →
        fs.lookup "data" = some (.obj ds) →
        ds.lookup "tool" = some (.obj ts) → ts ≠ [] →
        ∃ s', websocket_step s (.obj fs) = .ok s'
          [.assistantToolResult
            ("I used the " ++ pyStr ((ts.lookup "name").getD (.str "Tool")) ++
              " tool and got: " ++ pyStr ((ts.lookup "result").getD (.str "No result")))
            s.nextId])
  ∧ (∀ (ds : List (String × JVal)),
        fs.lookup "type" = some (.str "tool_response") →
        fs.lookup "data" = some (.obj ds) →
        (ds.lookup "tool" = none ∨ ds.lookup "tool" = some (.obj [])) →
        ∃ s', websocket_step s (.obj fs) = .ok s' [])
  ∧ (fs.lookup "type" = some (.str "tool_response") →
        fs.lookup "data" = none →
        ∃ s', websocket_step s (.obj fs) = .ok s' []) := by
  refine ⟨?_, ?_, ?_⟩
  · intro ds ts h1 h2 h3 hne
    have hts : ts.isEmpty = false := by
      cases ts with
      | nil => exact absurd rfl hne
      | cons a l => rfl
    have hh : handle fs s.nextId =
        (([.assistantToolResult
            ("I used the " ++ pyStr ((ts.lookup "name").getD (.str "Tool")) ++
              " tool and got: " ++ pyStr ((ts.lookup "result").getD (.str "No result")))
            s.nextId], none), s.nextId + 1) := by
      simp [handle, tyIs, h1, handleToolResponse, dataGetD, h2, h3, pyTruthy, hts]
    exact ⟨_, websocket_step_of_handle_ok s fs _ _ hh (by simp [entryLiveRef])⟩
  · intro ds h1 h2 htool
    have hh : handle fs s.nextId = (([], none), s.nextId) := by
      rcases htool with ht | ht <;>
        simp [handle, tyIs, h1, handleToolResponse, dataGetD, h2, ht, pyTruthy]
    exact ⟨_, websocket_step_of_handle_ok s fs _ _ hh (by simp)⟩
  · intro h1 h2
    have hh : handle fs s.nextId = (([], none), s.nextId) := by
      simp [handle, tyIs, h1, handleToolResponse, dataGetD, h2, pyTruthy]
    exact ⟨_, websocket_step_of_handle_ok s fs _ _ hh (by simp)⟩

/-- Witness for C9: a tool response from GetWeather with result "Sunny,
22C" yields the templated assistant message. -/
theorem tool_response_behavior_witness :
    ∃ s', websocket_step ⟨[], 0⟩
        (.obj [("type", .str "tool_response"),
          ("data", .obj [("tool",
            .obj [("name", .str "GetWeather"), ("result", .str "Sunny, 22C")])])]) =
      .ok s' [.assistantToolResult "I used the GetWeather tool and got: Sunny, 22C" 0] :=
  (tool_response_behavior ⟨[], 0⟩ _).1
    [("tool", .obj [("name", .str "GetWeather"), ("result", .str "Sunny, 22C")])]
    [("name", .str "GetWeather"), ("result", .str "Sunny, 22C")]
    rfl rfl rfl (by simp)

/-- Claim C10: `ConnectionManager.connect` on an identity that is already
registered does not fail — it is a total overwrite: the connection entry
for that identity is replaced by the new handle, the identity's message
history is reset to the empty list (the first session's history and handle
are silently discarded), and every other identity's entries are
untouched. -/
theorem connect_replaces_existing (st : ServerState) (client_id : String)
    (ws old : Nat) (hist : List Entry)
    (h1 : st.active_connections client_id = some old)
    (h2 : st.message_history client_id = some hist) :
    (ConnectionManager.connect st client_id ws).active_connections client_id = some ws
  ∧ (ConnectionManager.connect st client_id ws).message_history client_id = some []
  ∧ (∀ k, k ≠ client_id →
      (ConnectionManager.connect st client_id ws).active_connections k =
        st.active_connections k ∧
      (ConnectionManager.connect st client_id ws).message_history k =
        st.message_history k) := by
  refine ⟨by simp [ConnectionManager.connect], by simp [ConnectionManager.connect], ?_⟩
  intro k hk
  simp [ConnectionManager.connect, hk]

/-- Witness for C10: reconnecting "c1" (handle 7, one history entry)
with handle 9 replaces the handle and empties the history. -/
theorem connect_replaces_existing_witness :
    (ConnectionManager.connect
        ⟨fun k => if k == "c1" then some 7 else none,
         fun k => if k == "c1" then some [.outbound (.connectionEstablished "c1")]
           else none⟩ "c1" 9).active_connections "c1" = some 9
  ∧ (ConnectionManager.connect
        ⟨fun k => if k == "c1" then some 7 else none,
         fun k => if k == "c1" then some [.outbound (.connectionEstablished "c1")]
           else none⟩ "c1" 9).message_history "c1" = some []
  ∧ (∀ k, k ≠ "c1" →
      (ConnectionManager.connect
        ⟨fun k => if k == "c1" then some 7 else none,
         fun k => if k == "c1" then some [.outbound (.connectionEstablished "c1")]
           else none⟩ "c1" 9).active_connections k =
        (if k == "c1" then some 7 else none)
      ∧ (ConnectionManager.connect
        ⟨fun k => if k == "c1" then some 7 else none,
         fun k => if k == "c1" then some [.outbound (.connectionEstablished "c1")]
           else none⟩ "c1" 9).message_history k =
        (if k == "c1" then some [.outbound (.connectionEstablished "c1")] else none)) :=
  connect_replaces_existing _ "c1" 9 7 [.outbound (.connectionEstablished "c1")]
    rfl rfl
